import Mathlib

/-!
Shallow embedding of the BaseEcosystemTools repository (src/src/BaseSDK.ts,
src/src/DeFiIntegrator.ts and the configuration module) together with proofs
about the behaviour of its transaction-intent builders, dispatcher and
portfolio analytics helpers.

JavaScript numbers are modelled as exact rationals together with the special
values NaN and the two infinities (type JSNum below); IEEE-754 rounding is not
modelled, which is faithful for the integer-magnitude and divide-by-zero
behaviour the theorems are about.  JavaScript strings are Lean strings.
-/

namespace BaseEcosystemTools

/-- Model of a JavaScript number for the operations the analytics helpers
perform: an exact rational, NaN, or a signed infinity. -/
inductive JSNum where
  | num (q : ℚ)
  | nan
  | posInf
  | negInf
  deriving DecidableEq, Repr

/-- JavaScript division `a / b` on finite operands: `0 / 0` is NaN and
`a / 0` for nonzero `a` is a signed infinity. -/
def jsDivNum (a b : ℚ) : JSNum :=
  if b = 0 then
    if a = 0 then JSNum.nan
    else if a > 0 then JSNum.posInf
    else JSNum.negInf
  else JSNum.num (a / b)

/-- JavaScript multiplication of a possibly non-finite number by a finite
rational (used for the `* 100` in percentage computation). -/
def jsMulNum (a : JSNum) (q : ℚ) : JSNum :=
  match a with
  | JSNum.num x => JSNum.num (x * q)
  | JSNum.nan => JSNum.nan
  | JSNum.posInf => if q > 0 then JSNum.posInf else if q < 0 then JSNum.negInf else JSNum.nan
  | JSNum.negInf => if q > 0 then JSNum.negInf else if q < 0 then JSNum.posInf else JSNum.nan

/-- JavaScript `Math.min(a, q)` with a finite second argument: NaN is
absorbing. -/
def mathMinJS (a : JSNum) (q : ℚ) : JSNum :=
  match a with
  | JSNum.num x => JSNum.num (min x q)
  | JSNum.nan => JSNum.nan
  | JSNum.posInf => JSNum.num q
  | JSNum.negInf => JSNum.negInf

/-- Value of a hexadecimal digit character, if it is one. -/
def hexDigitVal (c : Char) : Option Nat :=
  if '0' ≤ c ∧ c ≤ '9' then some (c.toNat - '0'.toNat)
  else if 'a' ≤ c ∧ c ≤ 'f' then some (c.toNat - 'a'.toNat + 10)
  else if 'A' ≤ c ∧ c ≤ 'F' then some (c.toNat - 'A'.toNat + 10)
  else none

/-- Value of a decimal digit character, if it is one. -/
def decDigitVal (c : Char) : Option Nat :=
  if '0' ≤ c ∧ c ≤ '9' then some (c.toNat - '0'.toNat) else none

/-- Accumulate the value of the longest leading run of digits; `none` when no
digit at all was consumed (JavaScript `parseInt` then yields NaN). -/
def takeDigits (digitVal : Char → Option Nat) (base : Nat) :
    List Char → Nat → Bool → Option Nat
  | [], acc, found => if found then some acc else none
  | c :: rest, acc, found =>
    match digitVal c with
    | some v => takeDigits digitVal base rest (acc * base + v) true
    | none => if found then some acc else none

/-- JavaScript `parseInt(s)` with no radix argument: optional leading
whitespace, optional sign, a `0x`/`0X` prefix selecting base 16, then the
longest run of digits; `none` models NaN. -/
def parseIntJS (s : String) : Option Int :=
  let cs := s.toList.dropWhile fun c => c == ' ' || c == '\t' || c == '\n'
  let signAndRest : Int × List Char :=
    match cs with
    | '-' :: rest => (-1, rest)
    | '+' :: rest => (1, rest)
    | _ => (1, cs)
  let mag : Option Nat :=
    match signAndRest.2 with
    | '0' :: 'x' :: rest => takeDigits hexDigitVal 16 rest 0 false
    | '0' :: 'X' :: rest => takeDigits hexDigitVal 16 rest 0 false
    | other => takeDigits decDigitVal 10 other 0 false
  mag.map fun n => signAndRest.1 * (n : Int)

/-- JavaScript `(i).toString(16)` for an integer-valued number: lowercase hex
digits, a leading minus sign for negative values. -/
def jsIntHex (i : Int) : String :=
  if i < 0 then "-" ++ String.mk (Nat.toDigits 16 i.natAbs)
  else String.mk (Nat.toDigits 16 i.natAbs)

/-- JavaScript `(x).toString(16)` applied to the result of `parseInt`: NaN
prints as the three characters `NaN`. -/
def jsHexOfParsed (o : Option Int) : String :=
  match o with
  | none => "NaN"
  | some i => jsIntHex i

/-- JavaScript `s.padStart(n, c)`: left-pad with `c` up to length `n`,
returning `s` unchanged when it is already long enough. -/
def padStart (s : String) (n : Nat) (c : Char) : String :=
  if n ≤ s.length then s else String.mk (List.replicate (n - s.length) c) ++ s

/-! ## Error taxonomy and results

The spec's error taxonomy (section 7).  The source throws plain `Error`
objects; each distinct failure mode of the embedded code is mapped to the
taxonomy constructor the spec gives it (for instance
`throw new Error('Signer required for transactions')` in `BaseSDK.swapTokens`
is the failure the spec names `NoSignerError`).  `JSError.raw` models an
uncaught provider/runtime exception that is not one of the taxonomy's typed
errors. -/

/-- The typed error taxonomy from the spec (section 7). -/
inductive SDKError where
  | invalidParameter (field : String)
  | invalidAddress (addr : String)
  | noSigner
  | connectivity (msg : String)
  | contractCall (msg : String)
  | unsupportedProtocol (name : String)
  deriving DecidableEq, Repr

/-- An error escaping to the caller: either one of the taxonomy's typed
errors, or a raw provider/runtime exception. -/
inductive JSError where
  | typed (e : SDKError)
  | raw (msg : String)
  deriving DecidableEq, Repr

/-- Normalized transaction result (`{hash, blockNumber, gasUsed, status}` as
asserted by the test suite: `gasUsed` is the receipt's gas rendered as a
string, `status` is the string `success` or `failed`). -/
structure TransactionResult where
  hash : String
  blockNumber : Nat
  gasUsed : String
  status : String
  deriving DecidableEq, Repr

/-- A transaction submission handed to the underlying provider. -/
structure NetworkCall where
  dest : String
  value : String
  payload : String
  deriving DecidableEq, Repr

/-- Behaviour of the external provider for one submission: either a receipt
(with success flag) or a raw transport-level exception. -/
inductive ProviderOutcome where
  | receipt (hash : String) (blockNumber : Nat) (gasUsed : Nat) (ok : Bool)
  | throwErr (msg : String)
  deriving DecidableEq, Repr

/-! ## BaseSDK (src/src/BaseSDK.ts) -/

/-- `BaseConfig` from src/src/BaseSDK.ts. -/
structure BaseConfig where
  rpcUrl : String
  chainId : Int
  explorerUrl : String
  multicallAddress : String
  deriving DecidableEq, Repr

/-- The `BaseSDK` object state: its config and the optional signer (a wallet
built from the private key when one was passed to the constructor). -/
structure BaseSDK where
  config : BaseConfig
  signer : Option String
  deriving DecidableEq, Repr

/-- The `BaseSDK` constructor: stores the config and creates a signer exactly
when a private key is supplied. -/
def mkBaseSDK (config : BaseConfig) (privateKey : Option String) : BaseSDK :=
  { config := config, signer := privateKey }

/-- Parameters of `BaseSDK.swapTokens`. -/
structure SwapTokensParams where
  tokenIn : String
  tokenOut : String
  amountIn : String
  slippage : ℚ
  deadline : Option Int
  deriving DecidableEq, Repr

/-- Result object of `BaseSDK.swapTokens`. -/
structure SwapTokensResult where
  txHash : String
  amountOut : String
  gasUsed : Nat
  deriving DecidableEq, Repr

/-- `BaseSDK.swapTokens`: throws the no-signer error when no signing
credential is present, otherwise returns the hardcoded stub result; it makes
no provider call in either branch (constructing the router contract object is
not a network call). -/
def BaseSDK.swapTokens (sdk : BaseSDK) (_params : SwapTokensParams) :
    Except JSError SwapTokensResult × List NetworkCall :=
  match sdk.signer with
  | none => (Except.error (JSError.typed SDKError.noSigner), [])
  | some _ => (Except.ok ⟨"0x...", "0", 150000⟩, [])

/-- Parameters of `BaseSDK.addLiquidity`. -/
structure AddLiquidityParams where
  token0 : String
  token1 : String
  amount0 : String
  amount1 : String
  fee : Int
  deriving DecidableEq, Repr

/-- Result object of `BaseSDK.addLiquidity`. -/
structure AddLiquidityResult where
  txHash : String
  lpTokens : String
  gasUsed : Nat
  deriving DecidableEq, Repr

/-- `BaseSDK.addLiquidity`: no-signer error without a credential, otherwise
the hardcoded stub result; no provider call. -/
def BaseSDK.addLiquidity (sdk : BaseSDK) (_params : AddLiquidityParams) :
    Except JSError AddLiquidityResult × List NetworkCall :=
  match sdk.signer with
  | none => (Except.error (JSError.typed SDKError.noSigner), [])
  | some _ => (Except.ok ⟨"0x...", "0", 200000⟩, [])

/-- Parameters of `BaseSDK.bridgeToBase`. -/
structure BridgeParams where
  amount : String
  token : String
  fromChain : Int
  deriving DecidableEq, Repr

/-- Result object of `BaseSDK.bridgeToBase`. -/
structure BridgeResult where
  txHash : String
  bridgeId : String
  estimatedTime : Nat
  deriving DecidableEq, Repr

/-- `BaseSDK.bridgeToBase`: no-signer error without a credential, otherwise
the hardcoded stub result; no provider call. -/
def BaseSDK.bridgeToBase (sdk : BaseSDK) (_params : BridgeParams) :
    Except JSError BridgeResult × List NetworkCall :=
  match sdk.signer with
  | none => (Except.error (JSError.typed SDKError.noSigner), [])
  | some _ => (Except.ok ⟨"0x...", "0x...", 600⟩, [])

/-- Modelled from the spec: `BaseSDK.sendTransaction` is called by every
`DeFiIntegrator` operation and exercised by the repository's test suite, but
the method itself is missing from src/src/BaseSDK.ts (the file is truncated).
Per the spec — section 4.2 `submit` requires a signing credential and fails
with `NoSignerError` otherwise, surfaces transport failure as
`ConnectivityError`, and on a receipt returns a `TransactionResult` whose
`status` is `success` or `failed`; the test suite fixes the result shape
`{hash, blockNumber, gasUsed, status}` with `gasUsed` stringified. -/
def sendTransaction (sdk : BaseSDK) (outcome : ProviderOutcome)
    (dest value data : String) : Except JSError TransactionResult × List NetworkCall :=
  match sdk.signer with
  | none => (Except.error (JSError.typed SDKError.noSigner), [])
  | some _ =>
    match outcome with
    | ProviderOutcome.throwErr msg =>
      (Except.error (JSError.typed (SDKError.connectivity msg)), [⟨dest, value, data⟩])
    | ProviderOutcome.receipt h bn g ok =>
      (Except.ok ⟨h, bn, toString g, if ok then "success" else "failed"⟩,
       [⟨dest, value, data⟩])

/-! ## DeFiIntegrator (src/src/DeFiIntegrator.ts) -/

/-- Router addresses fixed by the `DeFiIntegrator` constructor. -/
def uniswapV3Router : String := "0x2626664c2603336E57B271c5C0b26F421741e481"

/-- The Aerodrome router address fixed by the constructor. -/
def aerodromeRouter : String := "0xcF77a3Ba9A5CA399B7c97c74d54e5b1Beb874E43"

/-- The Compound Comet address fixed by the constructor. -/
def compoundComet : String := "0x9c4ec768c28520B50860ea7a15bd7213a9fF58bf"

/-- `SwapParams` from src/src/DeFiIntegrator.ts. -/
structure SwapParams where
  tokenIn : String
  tokenOut : String
  amountIn : String
  amountOutMinimum : String
  sqrtPriceLimitX96 : Option String
  recipient : String
  deadline : Int
  deriving DecidableEq, Repr

/-- `LiquidityParams` from src/src/DeFiIntegrator.ts. -/
structure LiquidityParams where
  token0 : String
  token1 : String
  fee : Int
  tickLower : Int
  tickUpper : Int
  amount0Desired : String
  amount1Desired : String
  amount0Min : String
  amount1Min : String
  recipient : String
  deadline : Int
  deriving DecidableEq, Repr

/-- An Aerodrome route record as produced by `getAerodromeRoutes`. -/
structure AeroRoute where
  fromToken : String
  toToken : String
  stable : Bool
  factory : String
  deriving DecidableEq, Repr

/-- `PoolInfo` from src/src/DeFiIntegrator.ts. -/
structure PoolInfo where
  address : String
  token0 : String
  token1 : String
  fee : Int
  liquidity : String
  sqrtPriceX96 : String
  deriving DecidableEq, Repr

/-- `getPoolInfo`: the mock pool record.  The pool address is
`'0x' + Math.random().toString(16).substr(2, 40)`; the random hex fragment is
passed in as the `randHex` parameter so the nondeterminism is explicit. -/
def getPoolInfo (randHex : String) (token0 token1 : String) (fee : Int) : PoolInfo :=
  { address := "0x" ++ randHex
    token0 := token0
    token1 := token1
    fee := fee
    liquidity := "1000000000000000000"
    sqrtPriceX96 := "79228162514264337593543950336" }

/-- `encodeSwapData`: the `exactInputSingle` selector followed by the two
token addresses with the `0x` prefix sliced off and the parsed input amount
in hex, each left-zero-padded to 64 characters. -/
def encodeSwapData (params : SwapParams) : String :=
  "0x414bf389" ++
    padStart ((params.tokenIn.drop 2)) 64 '0' ++
    padStart ((params.tokenOut.drop 2)) 64 '0' ++
    padStart (jsHexOfParsed (parseIntJS params.amountIn)) 64 '0'

/-- `encodeAerodromeSwap`: the `swapExactTokensForTokens` selector followed by
the parsed amounts in hex, left-zero-padded; routes, recipient and deadline
are not encoded. -/
def encodeAerodromeSwap (amountIn amountOutMin : String) (_routes : List AeroRoute)
    (_to : String) (_deadline : Int) : String :=
  "0x38ed1739" ++
    padStart (jsHexOfParsed (parseIntJS amountIn)) 64 '0' ++
    padStart (jsHexOfParsed (parseIntJS amountOutMin)) 64 '0'

/-- `encodeLiquidityData`: the `mint` selector followed by the two token
addresses (prefix sliced off) and the fee in hex, left-zero-padded. -/
def encodeLiquidityData (params : LiquidityParams) : String :=
  "0x219f5d17" ++
    padStart ((params.token0.drop 2)) 64 '0' ++
    padStart ((params.token1.drop 2)) 64 '0' ++
    padStart (jsIntHex params.fee) 64 '0'

/-- `encodeRemoveLiquidityData`: the `decreaseLiquidity` selector followed by
the token id and the parsed liquidity in hex, left-zero-padded. -/
def encodeRemoveLiquidityData (tokenId : Int) (liquidity _amount0Min _amount1Min : String)
    (_deadline : Int) : String :=
  "0x0c49ccbe" ++
    padStart (jsIntHex tokenId) 64 '0' ++
    padStart (jsHexOfParsed (parseIntJS liquidity)) 64 '0'

/-- `encodeSupplyData`: the `supply` selector followed by the asset address
(prefix sliced off) and the parsed amount in hex, left-zero-padded. -/
def encodeSupplyData (asset amount : String) : String :=
  "0xa0712d68" ++
    padStart ((asset.drop 2)) 64 '0' ++
    padStart (jsHexOfParsed (parseIntJS amount)) 64 '0'

/-- `encodeBorrowData`: the `withdraw` selector followed by the asset address
(prefix sliced off) and the parsed amount in hex, left-zero-padded. -/
def encodeBorrowData (asset amount : String) : String :=
  "0xc5ebeaec" ++
    padStart ((asset.drop 2)) 64 '0' ++
    padStart (jsHexOfParsed (parseIntJS amount)) 64 '0'

/-- `encodeStakeData`: the `stake` selector followed by the parsed amount in
hex, left-zero-padded; the pool argument is not encoded. -/
def encodeStakeData (_pool amount : String) : String :=
  "0xa694fc3a" ++ padStart (jsHexOfParsed (parseIntJS amount)) 64 '0'

/-- `encodeClaimData`: just the `getReward` selector. -/
def encodeClaimData : String := "0x3d18b912"

/-- `swapExactInputSingle`: encode the swap and submit it to the Uniswap V3
router through `sendTransaction`, returning the result hash. -/
def swapExactInputSingle (sdk : BaseSDK) (outcome : ProviderOutcome)
    (params : SwapParams) : Except JSError String × List NetworkCall :=
  let r := sendTransaction sdk outcome uniswapV3Router "0" (encodeSwapData params)
  (r.1.map (fun t => t.hash), r.2)

/-- `swapOnAerodrome`: encode the swap and submit it to the Aerodrome router,
returning the result hash. -/
def swapOnAerodrome (sdk : BaseSDK) (outcome : ProviderOutcome)
    (amountIn amountOutMin : String) (routes : List AeroRoute) (toAddr : String)
    (deadline : Int) : Except JSError String × List NetworkCall :=
  let r := sendTransaction sdk outcome aerodromeRouter "0"
    (encodeAerodromeSwap amountIn amountOutMin routes toAddr deadline)
  (r.1.map (fun t => t.hash), r.2)

/-- `DeFiIntegrator.addLiquidity`: encode the mint and submit it to the
Uniswap V3 router, returning the result hash. -/
def addLiquidity (sdk : BaseSDK) (outcome : ProviderOutcome)
    (params : LiquidityParams) : Except JSError String × List NetworkCall :=
  let r := sendTransaction sdk outcome uniswapV3Router "0" (encodeLiquidityData params)
  (r.1.map (fun t => t.hash), r.2)

/-- `removeLiquidity`: encode the decrease and submit it to the Uniswap V3
router, returning the result hash. -/
def removeLiquidity (sdk : BaseSDK) (outcome : ProviderOutcome) (tokenId : Int)
    (liquidity amount0Min amount1Min : String) (deadline : Int) :
    Except JSError String × List NetworkCall :=
  let r := sendTransaction sdk outcome uniswapV3Router "0"
    (encodeRemoveLiquidityData tokenId liquidity amount0Min amount1Min deadline)
  (r.1.map (fun t => t.hash), r.2)

/-- `supplyToCompound`: encode the supply and submit it to the Comet
contract, returning the result hash. -/
def supplyToCompound (sdk : BaseSDK) (outcome : ProviderOutcome)
    (asset amount : String) : Except JSError String × List NetworkCall :=
  let r := sendTransaction sdk outcome compoundComet "0" (encodeSupplyData asset amount)
  (r.1.map (fun t => t.hash), r.2)

/-- `borrowFromCompound`: encode the borrow and submit it to the Comet
contract, returning the result hash. -/
def borrowFromCompound (sdk : BaseSDK) (outcome : ProviderOutcome)
    (asset amount : String) : Except JSError String × List NetworkCall :=
  let r := sendTransaction sdk outcome compoundComet "0" (encodeBorrowData asset amount)
  (r.1.map (fun t => t.hash), r.2)

/-- `stakeLPTokens`: encode the stake and submit it to the pool address
itself, returning the result hash. -/
def stakeLPTokens (sdk : BaseSDK) (outcome : ProviderOutcome)
    (pool amount : String) : Except JSError String × List NetworkCall :=
  let r := sendTransaction sdk outcome pool "0" (encodeStakeData pool amount)
  (r.1.map (fun t => t.hash), r.2)

/-- `claimRewards`: submit the claim payload to the pool address, returning
the result hash. -/
def claimRewards (sdk : BaseSDK) (outcome : ProviderOutcome) (pool : String) :
    Except JSError String × List NetworkCall :=
  let r := sendTransaction sdk outcome pool "0" encodeClaimData
  (r.1.map (fun t => t.hash), r.2)

/-! ## Protocol registry (src/src/BaseSDK.ts, `BASE_PROTOCOLS`) -/

/-- `DeFiProtocol` from src/src/BaseSDK.ts (`type` is the protocol class:
`dex`, `lending`, `yield` or `bridge`). -/
structure DeFiProtocol where
  name : String
  address : String
  protocolType : String
  deriving DecidableEq, Repr

/-- The `BASE_PROTOCOLS` registry constant. -/
def BASE_PROTOCOLS : List DeFiProtocol :=
  [ ⟨"Uniswap V3", "0x2626664c2603336E57B271c5C0b26F421741e481", "dex"⟩,
    ⟨"Aerodrome", "0xcF77a3Ba9A5CA399B7c97c74d54e5b1Beb874E43", "dex"⟩,
    ⟨"Compound V3", "0x9c4ec768c28520B50860ea7a15bd7213a9fF58bf", "lending"⟩,
    ⟨"Base Bridge", "0x3154Cf16ccdb4C6d922629664174b904d80F2C35", "bridge"⟩ ]

/-- Class of a protocol name according to the registry. -/
def protocolClassOf (name : String) : Option String :=
  (BASE_PROTOCOLS.find? fun p => p.name == name).map fun p => p.protocolType

/-! ## Portfolio analytics (src/src/DeFiIntegrator.ts)

Balance `value` fields flow through `parseFloat` and `toString`; since both
round-trip exactly on finite JavaScript numbers, values are modelled directly
as the rationals they denote. -/

/-- A breakdown entry of `getPortfolioBalance`, with the percentage a
`JSNum` because the division `value / totalValue` can produce NaN. -/
structure BreakdownEntry where
  protocol : String
  value : ℚ
  percentage : JSNum
  deriving DecidableEq, Repr

/-- `getPortfolioBalance`, as a function of the per-protocol balances it
fetches (the fetcher `getProtocolBalance` is external): `totalValue` is the
reduce-sum of the values, and each entry's percentage is
`(value / totalValue) * 100` with JavaScript division semantics. -/
def getPortfolioBalance (balances : List (String × ℚ)) :
    ℚ × List BreakdownEntry :=
  let totalValue := balances.foldl (fun s b => s + b.2) 0
  (totalValue,
   balances.map fun b => ⟨b.1, b.2, jsMulNum (jsDivNum b.2 totalValue) 100⟩)

/-- `getPortfolioValue`: the hardcoded mock snapshot (string numerals in the
source, modelled as the integers they denote). -/
def getPortfolioValue : ℚ × List (String × ℚ) :=
  (10000000000000000000,
   [("Uniswap V3", 5000000000000000000),
    ("Aerodrome", 3000000000000000000),
    ("Compound V3", 2000000000000000000)])

/-- A position as consumed by `calculateRiskScore` (the source types the
list as `any[]` and reads the `apr` and `protocol` fields). -/
structure RiskPosition where
  apr : ℚ
  protocol : String
  deriving DecidableEq, Repr

/-- Per-position increment of the `forEach` body of `calculateRiskScore`:
an APR tier (strictly above 20: 3, strictly above 10: 2, otherwise 1) plus a
protocol-name factor (exactly `Compound V3`: 1, exactly `Uniswap V3`: 2, any
other name: 3). -/
def riskContribution (p : RiskPosition) : ℚ :=
  (if p.apr > 20 then 3 else if p.apr > 10 then 2 else 1) +
  (if p.protocol = "Compound V3" then 1
   else if p.protocol = "Uniswap V3" then 2
   else 3)

/-- `calculateRiskScore`: accumulate the contributions, divide by the list
length with JavaScript division semantics and take `Math.min` with 10.
There is no special case for the empty list. -/
def calculateRiskScore (positions : List RiskPosition) : JSNum :=
  let riskScore := positions.foldl (fun acc p => acc + riskContribution p) 0
  mathMinJS (jsDivNum riskScore positions.length) 10

/-- Stated from the claim for comparison with `calculateRiskScore`: the APR
tier reading of C5 (below 10: 1, from 10 to 20: 2, above 20: 3). -/
def claimedTier (apr : ℚ) : ℚ :=
  if apr < 10 then 1 else if apr ≤ 20 then 2 else 3

/-- Stated from the claim for comparison with `calculateRiskScore`: the
protocol-class contribution of C5 (lending class: 1, exchange class: 2,
others: 3), with the class taken from the registry. -/
def claimedClassContribution (protocol : String) : ℚ :=
  match protocolClassOf protocol with
  | some t => if t = "lending" then 1 else if t = "dex" then 2 else 3
  | none => 3

/-- Stated from the claim for comparison with `calculateRiskScore`: the risk
score C5 describes — mean of per-position tier-plus-class contributions,
capped at 10. -/
def claimedRiskScore (positions : List RiskPosition) : ℚ :=
  if positions.length = 0 then 0
  else
    min ((positions.map fun p => claimedTier p.apr + claimedClassContribution p.protocol).sum
          / positions.length) 10

/-! ## Helper lemmas -/

/-- Left fold of additions equals the initial value plus the sum of the
mapped list. -/
lemma foldl_add_map {α : Type} (f : α → ℚ) :
    ∀ (l : List α) (init : ℚ),
      l.foldl (fun s a => s + f a) init = init + (l.map f).sum := by
  intro l
  induction l with
  | nil => simp
  | cons a t ih =>
    intro init
    simp only [List.foldl, List.map, List.sum_cons, ih]
    ring

/-- Whatever the signer and provider outcome, mapping the dispatcher's result
never produces a raw (non-taxonomy) error. -/
lemma sendTransaction_map_no_raw (sdk : BaseSDK) (outcome : ProviderOutcome)
    (dest value data : String) (f : TransactionResult → String) (msg : String) :
    (sendTransaction sdk outcome dest value data).1.map f ≠
      Except.error (JSError.raw msg) := by
  obtain ⟨cfg, sg⟩ := sdk
  unfold sendTransaction
  cases sg <;> cases outcome <;> simp [Except.map]

/-- Whatever the signer and provider outcome, mapping the dispatcher's result
never produces an `InvalidParameterError`. -/
lemma sendTransaction_map_no_invalidParam (sdk : BaseSDK) (outcome : ProviderOutcome)
    (dest value data : String) (f : TransactionResult → String) (field : String) :
    (sendTransaction sdk outcome dest value data).1.map f ≠
      Except.error (JSError.typed (SDKError.invalidParameter field)) := by
  obtain ⟨cfg, sg⟩ := sdk
  unfold sendTransaction
  cases sg <;> cases outcome <;> simp [Except.map]

/-! ## Claim theorems -/

/-- C1: every network-reaching `DeFiIntegrator` operation
(`swapExactInputSingle`, `swapOnAerodrome`, `addLiquidity`,
`removeLiquidity`, `supplyToCompound`, `borrowFromCompound`,
`stakeLPTokens`, `claimRewards`) returns either a value derived from the
normalized `TransactionResult` or a typed taxonomy error; no raw
provider/runtime exception escapes to the caller, for every input and every
provider outcome. -/
theorem operations_no_raw_error_escapes :
    ∀ (sdk : BaseSDK) (outcome : ProviderOutcome) (msg : String),
      (∀ params, (swapExactInputSingle sdk outcome params).1 ≠
        Except.error (JSError.raw msg)) ∧
      (∀ amountIn amountOutMin routes toAddr deadline,
        (swapOnAerodrome sdk outcome amountIn amountOutMin routes toAddr deadline).1 ≠
          Except.error (JSError.raw msg)) ∧
      (∀ params, (addLiquidity sdk outcome params).1 ≠
        Except.error (JSError.raw msg)) ∧
      (∀ tokenId liquidity amount0Min amount1Min deadline,
        (removeLiquidity sdk outcome tokenId liquidity amount0Min amount1Min deadline).1 ≠
          Except.error (JSError.raw msg)) ∧
      (∀ asset amount, (supplyToCompound sdk outcome asset amount).1 ≠
        Except.error (JSError.raw msg)) ∧
      (∀ asset amount, (borrowFromCompound sdk outcome asset amount).1 ≠
        Except.error (JSError.raw msg)) ∧
      (∀ pool amount, (stakeLPTokens sdk outcome pool amount).1 ≠
        Except.error (JSError.raw msg)) ∧
      (∀ pool, (claimRewards sdk outcome pool).1 ≠
        Except.error (JSError.raw msg)) := by
  intro sdk outcome msg
  refine ⟨fun _ => ?_, fun _ _ _ _ _ => ?_, fun _ => ?_, fun _ _ _ _ _ => ?_,
    fun _ _ => ?_, fun _ _ => ?_, fun _ _ => ?_, fun _ => ?_⟩ <;>
    exact sendTransaction_map_no_raw sdk outcome _ _ _ _ msg

/-- C2 counterexample: with a signer present and a well-behaved provider, a
swap whose `amountIn` (`"abc"`) does not parse as a non-negative integer is
not rejected with `InvalidParameterError`; the builder encodes the amount as
the literal digits `NaN` and the network call is attempted and succeeds. -/
theorem swap_nonnumeric_amount_not_rejected :
    swapExactInputSingle
        (mkBaseSDK ⟨"https://mainnet.base.org", 8453, "https://basescan.org",
          "0xcA11bde05977b3631167028862bE2a173976CA11"⟩ (some "0xkey"))
        (ProviderOutcome.receipt "0xabc123" 12345 150000 true)
        ⟨"0xA0b86a33E6417c8f2c8B758B2d7D2E4C2F2e2e2e",
         "0x833589fCD6eDb6E08f4c7C32D4f71b54bdA02913",
         "abc", "990000000", none,
         "0x1234567890123456789012345678901234567890", 1700000000⟩ =
      (Except.ok "0xabc123",
       [⟨uniswapV3Router, "0",
         "0x414bf389" ++
           "000000000000000000000000A0b86a33E6417c8f2c8B758B2d7D2E4C2F2e2e2e" ++
           "000000000000000000000000833589fCD6eDb6E08f4c7C32D4f71b54bdA02913" ++
           "0000000000000000000000000000000000000000000000000000000000000NaN"⟩]) := by
  rfl

/-- C2 amended: the transaction builders perform no numeric or deadline
validation at all — for every input (well-formed or not) no operation ever
fails with `InvalidParameterError`; malformed amounts are silently encoded
(as `NaN` digits) and the submission proceeds. -/
theorem builders_never_raise_invalid_parameter :
    ∀ (sdk : BaseSDK) (outcome : ProviderOutcome) (field : String),
      (∀ params, (swapExactInputSingle sdk outcome params).1 ≠
        Except.error (JSError.typed (SDKError.invalidParameter field))) ∧
      (∀ amountIn amountOutMin routes toAddr deadline,
        (swapOnAerodrome sdk outcome amountIn amountOutMin routes toAddr deadline).1 ≠
          Except.error (JSError.typed (SDKError.invalidParameter field))) ∧
      (∀ params, (addLiquidity sdk outcome params).1 ≠
        Except.error (JSError.typed (SDKError.invalidParameter field))) ∧
      (∀ tokenId liquidity amount0Min amount1Min deadline,
        (removeLiquidity sdk outcome tokenId liquidity amount0Min amount1Min deadline).1 ≠
          Except.error (JSError.typed (SDKError.invalidParameter field))) ∧
      (∀ asset amount, (supplyToCompound sdk outcome asset amount).1 ≠
        Except.error (JSError.typed (SDKError.invalidParameter field))) ∧
      (∀ asset amount, (borrowFromCompound sdk outcome asset amount).1 ≠
        Except.error (JSError.typed (SDKError.invalidParameter field))) ∧
      (∀ pool amount, (stakeLPTokens sdk outcome pool amount).1 ≠
        Except.error (JSError.typed (SDKError.invalidParameter field))) ∧
      (∀ pool, (claimRewards sdk outcome pool).1 ≠
        Except.error (JSError.typed (SDKError.invalidParameter field))) := by
  intro sdk outcome field
  refine ⟨fun _ => ?_, fun _ _ _ _ _ => ?_, fun _ => ?_, fun _ _ _ _ _ => ?_,
    fun _ _ => ?_, fun _ _ => ?_, fun _ _ => ?_, fun _ => ?_⟩ <;>
    exact sendTransaction_map_no_invalidParam sdk outcome _ _ _ _ field

/-- C3: every payload-producing encoder is a pure, deterministic function of
its inputs — two calls with identical inputs yield byte-for-byte identical
payloads. -/
theorem encoders_deterministic :
    (∀ p : SwapParams, encodeSwapData p = encodeSwapData p) ∧
    (∀ aIn aMin routes toAddr dl,
      encodeAerodromeSwap aIn aMin routes toAddr dl =
        encodeAerodromeSwap aIn aMin routes toAddr dl) ∧
    (∀ p : LiquidityParams, encodeLiquidityData p = encodeLiquidityData p) ∧
    (∀ tid liq a0 a1 dl,
      encodeRemoveLiquidityData tid liq a0 a1 dl =
        encodeRemoveLiquidityData tid liq a0 a1 dl) ∧
    (∀ asset amount, encodeSupplyData asset amount = encodeSupplyData asset amount) ∧
    (∀ asset amount, encodeBorrowData asset amount = encodeBorrowData asset amount) ∧
    (∀ pool amount, encodeStakeData pool amount = encodeStakeData pool amount) ∧
    encodeClaimData = encodeClaimData := by
  exact ⟨fun _ => rfl, fun _ _ _ _ _ => rfl, fun _ => rfl, fun _ _ _ _ _ => rfl,
    fun _ _ => rfl, fun _ _ => rfl, fun _ _ => rfl, rfl⟩

/-- C4: on a `BaseSDK` constructed without a signing credential, every
transaction operation (`swapTokens`, `addLiquidity`, `bridgeToBase`) fails
with the no-signer error and performs no network call, for every parameter
value. -/
theorem sdk_ops_without_signer_fail_no_network :
    ∀ (config : BaseConfig),
      (∀ params, (mkBaseSDK config none).swapTokens params =
        (Except.error (JSError.typed SDKError.noSigner), [])) ∧
      (∀ params, (mkBaseSDK config none).addLiquidity params =
        (Except.error (JSError.typed SDKError.noSigner), [])) ∧
      (∀ params, (mkBaseSDK config none).bridgeToBase params =
        (Except.error (JSError.typed SDKError.noSigner), [])) := by
  intro config
  exact ⟨fun _ => rfl, fun _ => rfl, fun _ => rfl⟩

/-- C5 counterexample: a single position with APR 25 on `Aerodrome` — an
exchange-class protocol per the registry — scores 3 + 2 = 5 under the claim's
protocol-class rule but 6 under the code, which adds 2 only for the literal
name `Uniswap V3` and 3 for every other non-`Compound V3` name. -/
theorem riskScore_class_rule_counterexample :
    claimedRiskScore [⟨25, "Aerodrome"⟩] = 5 ∧
    calculateRiskScore [⟨25, "Aerodrome"⟩] = JSNum.num 6 ∧
    calculateRiskScore [⟨25, "Aerodrome"⟩] ≠
      JSNum.num (claimedRiskScore [⟨25, "Aerodrome"⟩]) := by
  have h1 : claimedRiskScore [⟨25, "Aerodrome"⟩] = 5 := by
    simp +decide [claimedRiskScore, claimedTier, claimedClassContribution, protocolClassOf,
      BASE_PROTOCOLS, List.find?]
    norm_num [min_def]
  have h2 : calculateRiskScore [⟨25, "Aerodrome"⟩] = JSNum.num 6 := by
    simp +decide [calculateRiskScore, riskContribution, jsDivNum, mathMinJS]
    norm_num
  refine ⟨h1, h2, ?_⟩
  rw [h1, h2]
  simp only [ne_eq, JSNum.num.injEq]
  norm_num

/-- C5 amended: for every non-empty position list, `riskScore` returns the
mean per-position contribution capped at 10, where the contribution is the
APR tier (strictly above 20: 3, strictly above 10: 2, otherwise 1 — APR
exactly 10 scores 1) plus a factor determined by the exact protocol name
(`Compound V3`: 1, `Uniswap V3`: 2, every other name, whatever its registry
class: 3); in particular a single position with APR 25 and protocol
`Uniswap V3` scores exactly 5. -/
theorem riskScore_nonempty_mean_formula :
    ∀ positions : List RiskPosition, positions ≠ [] →
      calculateRiskScore positions =
        JSNum.num (min ((positions.map riskContribution).sum / positions.length) 10) := by
  intro positions hne
  unfold calculateRiskScore
  rw [foldl_add_map riskContribution positions 0, zero_add]
  have h0 : positions.length ≠ 0 := fun h => hne (List.length_eq_zero.mp h)
  have hlen : ((positions.length : ℚ)) ≠ 0 := by exact_mod_cast h0
  simp only [jsDivNum]
  rw [if_neg hlen]
  rfl

/-- Witness for the C5 amended theorem at the claim's own example: one
position with APR 25 on `Uniswap V3` scores exactly 5. -/
theorem riskScore_nonempty_mean_formula_witness :
    calculateRiskScore [⟨25, "Uniswap V3"⟩] = JSNum.num 5 := by
  have h := riskScore_nonempty_mean_formula [⟨25, "Uniswap V3"⟩] (by decide)
  rw [h]
  simp +decide [riskContribution]
  norm_num [min_def]

/-- C6: `riskScore` of the empty position list is NaN, not 0 — the code has
no empty-list special case and computes `Math.min(0 / 0, 10)`. -/
theorem riskScore_empty_returns_nan :
    calculateRiskScore [] = JSNum.nan := by
  decide

/-- C7: with a zero total, `getPortfolioBalance` produces NaN percentage
shares (naive division), not all-zero shares; the empty list does return
total 0 with an empty breakdown. -/
theorem portfolio_zero_total_percentage_is_nan :
    getPortfolioBalance [("Uniswap V3", 0)] =
      (0, [⟨"Uniswap V3", 0, JSNum.nan⟩]) ∧
    getPortfolioBalance [] = (0, []) := by
  constructor
  · norm_num [getPortfolioBalance, jsDivNum, jsMulNum]
  · norm_num [getPortfolioBalance]

/-- C8: `getPoolInfo` echoes its inputs — `token0` and `token1` preserve the
input order and `fee` equals the input fee exactly, for every input triple
(and every random address fragment). -/
theorem getPoolInfo_echoes_inputs :
    ∀ (randHex token0 token1 : String) (fee : Int),
      (getPoolInfo randHex token0 token1 fee).token0 = token0 ∧
      (getPoolInfo randHex token0 token1 fee).token1 = token1 ∧
      (getPoolInfo randHex token0 token1 fee).fee = fee := by
  intro randHex token0 token1 fee
  exact ⟨rfl, rfl, rfl⟩

/-- C9: every snapshot produced by the analytics layer satisfies the
invariant that the total value equals the sum of its breakdown entries'
values — for `getPortfolioBalance` on every balance list, and for the
hardcoded `getPortfolioValue` snapshot. -/
theorem portfolio_total_equals_breakdown_sum :
    (∀ balances : List (String × ℚ),
      (getPortfolioBalance balances).1 =
        ((getPortfolioBalance balances).2.map fun e => e.value).sum) ∧
    getPortfolioValue.1 = (getPortfolioValue.2.map fun e => e.2).sum := by
  constructor
  · intro balances
    unfold getPortfolioBalance
    simp only [List.map_map]
    rw [foldl_add_map (fun b => b.2) balances 0, zero_add]
    rfl
  · norm_num [getPortfolioValue]

/-- C10: the swap payload depends only on the `tokenIn`, `tokenOut` and
`amountIn` fields — any two `SwapParams` agreeing on those three fields
produce byte-for-byte identical payloads, whatever their `amountOutMinimum`,
`sqrtPriceLimitX96`, `recipient` and `deadline`. -/
theorem encodeSwapData_depends_only_on_three_fields :
    ∀ p q : SwapParams,
      p.tokenIn = q.tokenIn → p.tokenOut = q.tokenOut → p.amountIn = q.amountIn →
      encodeSwapData p = encodeSwapData q := by
  intro p q h1 h2 h3
  unfold encodeSwapData
  rw [h1, h2, h3]

/-- Witness for C10: two concrete parameter records differing in minimum
output, price limit, recipient and deadline encode to the same payload. -/
theorem encodeSwapData_depends_only_on_three_fields_witness :
    encodeSwapData
        ⟨"0x4200000000000000000000000000000000000006",
         "0x833589fCD6eDb6E08f4c7C32D4f71b54bdA02913",
         "1000", "990", none,
         "0x1234567890123456789012345678901234567890", 1700000000⟩ =
      encodeSwapData
        ⟨"0x4200000000000000000000000000000000000006",
         "0x833589fCD6eDb6E08f4c7C32D4f71b54bdA02913",
         "1000", "5", some "79228162514264337593543950336",
         "0x0987654321098765432109876543210987654321", 42⟩ :=
  encodeSwapData_depends_only_on_three_fields _ _ rfl rfl rfl

end BaseEcosystemTools
